import Mathlib

/-!
Shallow embedding of `src/cw_platform/gmt_policy.py` (CrossWatch global
tombstone policy): scope/operation model, canonical key resolver, TTL
policy resolver, negative event normalizer, and the suppression predicate.

Python dynamic values are embedded as `PyVal` (None / int / str / dict);
Python exceptions are embedded as `Except Unit`.  Numeric configuration
values are modelled over `Int` (the code accepts `int`/`float` and
truncates with `int(...)`; the claims are about integer configuration).
Real time (`time.time()`) is passed explicitly as the `now` argument.
-/

/-- One character of Python `str.lower`, restricted to ASCII. -/
def pyLowerChar (c : Char) : Char :=
  if 65 ≤ c.toNat ∧ c.toNat ≤ 90 then Char.ofNat (c.toNat + 32) else c

/-- Python `s.lower()`, restricted to ASCII case mapping. -/
def pyLower (s : String) : String := ⟨s.data.map pyLowerChar⟩

/-- ASCII whitespace as recognized by Python `str.strip` and `int("...")`. -/
def pyIsSpace (c : Char) : Bool :=
  c = ' ' || c = '\t' || c = '\n' || c = '\r' || c = Char.ofNat 11 || c = Char.ofNat 12

/-- Python `s.strip()` over ASCII whitespace. -/
def pyStrip (s : String) : String :=
  ⟨((s.data.dropWhile pyIsSpace).reverse.dropWhile pyIsSpace).reverse⟩

/-- Decimal digit value of a character, if any. -/
def pyDigit? (c : Char) : Option Nat :=
  if 48 ≤ c.toNat ∧ c.toNat ≤ 57 then some (c.toNat - 48) else Option.none

/-- Accumulate decimal digits; fails on the first non-digit. -/
def pyDigitsAux : List Char → Nat → Option Nat
  | [], acc => some acc
  | c :: rest, acc =>
    match pyDigit? c with
    | some d => pyDigitsAux rest (acc * 10 + d)
    | Option.none => Option.none

/-- Parse a nonempty all-digit character run. -/
def pyParseNat : List Char → Option Nat
  | [] => Option.none
  | l => pyDigitsAux l 0

/-- Python `int(s)` on a string: surrounding whitespace stripped, optional
sign, then decimal digits; anything else is a `ValueError`. -/
def pyParseInt (s : String) : Option Int :=
  match (pyStrip s).data with
  | [] => Option.none
  | c :: rest =>
    if c = '-' then (pyParseNat rest).map (fun n => -(n : Int))
    else if c = '+' then (pyParseNat rest).map (fun n => (n : Int))
    else (pyParseNat (c :: rest)).map (fun n => (n : Int))

/-- Embedding of the Python values the module manipulates. -/
inductive PyVal where
  | none
  | int (n : Int)
  | str (s : String)
  | dict (entries : List (String × PyVal))

/-- Python truthiness (`bool(v)`) on embedded values. -/
def pyTruthy : PyVal → Bool
  | PyVal.none => false
  | PyVal.int n => n != 0
  | PyVal.str s => s != ""
  | PyVal.dict es => !es.isEmpty

/-- Single-quote character used by Python `repr` of strings and dicts. -/
def pyQuote (s : String) : String :=
  String.singleton (Char.ofNat 39) ++ s ++ String.singleton (Char.ofNat 39)

mutual
/-- Python `repr(v)` (string escaping inside quotes is not modelled). -/
def pyRepr : PyVal → String
  | PyVal.none => "None"
  | PyVal.int n => toString n
  | PyVal.str s => pyQuote s
  | PyVal.dict es => "\x7b" ++ pyReprEntries es ++ "\x7d"
/-- Comma-separated `repr` of dict entries. -/
def pyReprEntries : List (String × PyVal) → String
  | [] => ""
  | (k, v) :: rest =>
    pyQuote k ++ ": " ++ pyRepr v ++
      (match rest with | [] => "" | _ => ", ") ++ pyReprEntries rest
end

/-- Python `str(v)` on embedded values. -/
def pyStr : PyVal → String
  | PyVal.str s => s
  | v => pyRepr v

/-- Python `int(v)`: identity on ints, parse for strings, `TypeError`
(embedded as `Except.error`) otherwise. -/
def pyInt : PyVal → Except Unit Int
  | PyVal.int n => Except.ok n
  | PyVal.str s =>
    match pyParseInt s with
    | some n => Except.ok n
    | Option.none => Except.error ()
  | _ => Except.error ()

/-- Python `m.get(k)` on a dict, returning `None` when absent. -/
def mapGet (m : List (String × PyVal)) (k : String) : PyVal :=
  (m.lookup k).getD PyVal.none

-- ---- Operation relationships (OPPOSITE / NEGATIVE_OPS) ----

/-- The `OPPOSITE` table of `gmt_policy.py`. -/
def OPPOSITE : List (String × String) :=
  [("add", "remove"), ("remove", "add"), ("rate", "unrate"),
   ("unrate", "rate"), ("scrobble", "unscrobble"), ("unscrobble", "scrobble")]

/-- The `NEGATIVE_OPS` set of `gmt_policy.py`. -/
def NEGATIVE_OPS : List String := ["remove", "unrate", "unscrobble"]

/-- `opposing(op)`: `OPPOSITE.get((op or "").lower(), (op or "").lower())`.
On a genuine string `s`, `s or ""` is `s`, so the guard is the identity here. -/
def opposing (op : String) : String :=
  (OPPOSITE.lookup (pyLower op)).getD (pyLower op)

/-- `is_negative(op)`: `(op or "").lower() in NEGATIVE_OPS`. -/
def is_negative (op : String) : Bool :=
  NEGATIVE_OPS.contains (pyLower op)

-- ---- Canonical identity (fallback resolver in gmt_policy.py) ----

/-- The `_ID_KEYS` priority tuple. -/
def _ID_KEYS : List String := ["tmdb", "imdb", "tvdb", "trakt", "plex", "guid", "slug"]

/-- `canonical_key(item)` (the module's fallback resolver).  `AttributeError`
paths — a truthy non-dict `ids` value (no `.get`), a truthy non-string
`type` value (no `.lower`) — are embedded as `Except.error`. -/
def canonical_key (item : List (String × PyVal)) : Except Unit String :=
  let idsVal := if pyTruthy (mapGet item "ids") then mapGet item "ids" else PyVal.dict []
  match idsVal with
  | PyVal.dict ids =>
    match _ID_KEYS.find? (fun k => pyTruthy (mapGet ids k)) with
    | some k => Except.ok (k ++ ":" ++ pyLower (pyStr (mapGet ids k)))
    | Option.none =>
      let tv := if pyTruthy (mapGet item "type") then mapGet item "type" else PyVal.str ""
      match tv with
      | PyVal.str t =>
        let ttl := pyLower (pyStrip (pyStr (if pyTruthy (mapGet item "title")
                           then mapGet item "title" else PyVal.str "")))
        let yrv := if pyTruthy (mapGet item "year") then mapGet item "year" else PyVal.str ""
        Except.ok (pyLower t ++ "|title:" ++ ttl ++ "|year:" ++ pyStr yrv)
      | _ => Except.error ()
  | _ => Except.error ()

-- ---- TTL policy ----

/-- Loop body of `_read`: dotted traversal with `None` default. -/
def readPath : PyVal → List String → PyVal
  | cur, [] => cur
  | cur, k :: rest =>
    match cur with
    | PyVal.dict es =>
      match mapGet es k with
      | PyVal.none => PyVal.none
      | v => readPath v rest
    | _ => PyVal.none

/-- `_read(cfg, *path, default=None)`: starts from `cfg or {}`. -/
def _read (cfg : PyVal) (path : List String) : PyVal :=
  readPath (if pyTruthy cfg then cfg else PyVal.dict []) path

/-- `isinstance(v, (int, float)) and int(v) > 0` over the `Int` model. -/
def posOverride : PyVal → Bool
  | PyVal.int n => decide (0 < n)
  | _ => false

/-- `int(v)` of a value already known numeric (only applied under `posOverride`). -/
def pyIntVal : PyVal → Int
  | PyVal.int n => n
  | _ => 0

/-- The `defaults_days` table of `get_quarantine_ttl_sec`. -/
def defaults_days : List (String × Int) :=
  [("watchlist", 7), ("ratings", 3), ("history", 2), ("playlists", 7)]

/-- `get_quarantine_ttl_sec(cfg, feature)`: seconds override, days override,
global days override, then static defaults (unknown features: 7 days). -/
def get_quarantine_ttl_sec (cfg : PyVal) (feature : String) : Int :=
  let feat := pyLower feature
  let sec_override := _read cfg ["sync", "gmt", feat ++ "_sec"]
  if posOverride sec_override then pyIntVal sec_override
  else
    let days_override := _read cfg ["sync", "gmt", feat ++ "_days"]
    if posOverride days_override then pyIntVal days_override * 24 * 3600
    else
      let global_days := _read cfg ["sync", "gmt_quarantine_days"]
      if posOverride global_days then pyIntVal global_days * 24 * 3600
      else ((defaults_days.lookup feat).getD 7) * 24 * 3600

-- ---- Event normalization ----

/-- `negative_event_key(feature, op)`: the `op` argument is read into a
discarded local and never used. -/
def negative_event_key (feature : Option String) (op : Option String) : String :=
  let feat := pyLower (feature.getD "")
  let _ := pyLower (op.getD "")
  if feat = "ratings" then "unrate"
  else if feat = "history" then "unscrobble"
  else "remove"

-- ---- Scope types and coercion ----

/-- `ScopeList` literal type. -/
inductive ScopeList where
  | watchlist
  | ratings
  | history
  | playlists

/-- The string a `ScopeList` value denotes. -/
def ScopeList.toStr : ScopeList → String
  | ScopeList.watchlist => "watchlist"
  | ScopeList.ratings => "ratings"
  | ScopeList.history => "history"
  | ScopeList.playlists => "playlists"

/-- `ScopeDim` literal type. -/
inductive ScopeDim where
  | add
  | remove
  | rate
  | unrate
  | scrobble
  | unscrobble

/-- The string a `ScopeDim` value denotes. -/
def ScopeDim.toStr : ScopeDim → String
  | ScopeDim.add => "add"
  | ScopeDim.remove => "remove"
  | ScopeDim.rate => "rate"
  | ScopeDim.unrate => "unrate"
  | ScopeDim.scrobble => "scrobble"
  | ScopeDim.unscrobble => "unscrobble"

/-- The frozen `Scope` dataclass. -/
structure Scope where
  list : ScopeList
  dim : ScopeDim

/-- The runtime shapes the `scope` argument of `should_suppress_write`
may take: a `Scope`, a mapping, or anything else. -/
inductive ScopeArg where
  | scope (s : Scope)
  | mapping (m : List (String × PyVal))
  | other (v : PyVal)

/-- `_coerce_scope(scope)`: `Scope` fields pass through; mappings read
`list`/`dim` with `""` default, stringified and lowered; anything else
raises `TypeError` (embedded as `Except.error`). -/
def _coerce_scope : ScopeArg → Except Unit (String × String)
  | ScopeArg.scope s => Except.ok (s.list.toStr, s.dim.toStr)
  | ScopeArg.mapping m =>
    Except.ok (pyLower (pyStr ((m.lookup "list").getD (PyVal.str ""))),
               pyLower (pyStr ((m.lookup "dim").getD (PyVal.str ""))))
  | ScopeArg.other _ => Except.error ()

-- ---- Store model ----

/-- One of the config attributes probed by `_cfg_from_store`: absent, a
plain (non-callable) value, or a zero-argument callable whose call
returns a value or raises. -/
inductive CfgAttr where
  | absent
  | val (v : PyVal)
  | fn (r : Except Unit PyVal)

/-- Duck-typed tombstone store: the three optional query capabilities
(each may raise when called) plus the three config attribute slots.
`Option.none` models an absent (or non-callable) attribute. -/
structure Store where
  cfg_attr : CfgAttr
  config_attr : CfgAttr
  get_config_attr : CfgAttr
  should_suppress_by_key :
    Option (String → String → String → Int → Option String → Except Unit PyVal)
  last_negative_ts :
    Option (String → String → String → Option String → Except Unit PyVal)
  get :
    Option (String → String → String → Option String → Except Unit PyVal)

/-- One iteration of the `_cfg_from_store` attribute loop: `some r` means
`return r`, `none` means fall through to the next attribute (including
when the callable raised, by the inner `except Exception: pass`). -/
def cfgAttrProbe : CfgAttr → Option PyVal
  | CfgAttr.absent => Option.none
  | CfgAttr.val v =>
    match v with
    | PyVal.dict _ => some v
    | _ => Option.none
  | CfgAttr.fn r =>
    match r with
    | Except.ok x => some x
    | Except.error _ => Option.none

/-- `_cfg_from_store(store)`: probe `cfg`, `config`, `get_config` in order;
never raises. -/
def _cfg_from_store (s : Store) : PyVal :=
  match cfgAttrProbe s.cfg_attr with
  | some r => r
  | Option.none =>
    match cfgAttrProbe s.config_attr with
    | some r => r
    | Option.none =>
      match cfgAttrProbe s.get_config_attr with
      | some r => r
      | Option.none => PyVal.none

-- ---- Suppression predicate ----

/-- `int(ttl_sec or get_quarantine_ttl_sec(cfg, feat))`: the override is
used whenever it is truthy (i.e. nonzero), the resolver otherwise. -/
def resolve_ttl (ttl_sec : Option Int) (cfg : PyVal) (feat : String) : Int :=
  match ttl_sec with
  | some n => if n = 0 then get_quarantine_ttl_sec cfg feat else n
  | Option.none => get_quarantine_ttl_sec cfg feat

/-- Body of the `try` block of `should_suppress_write`:
scope coercion, key computation, TTL resolution, then the three-tier
capability probe.  `Except.error` is any raised exception. -/
def should_suppress_write_core (now : Int) (store : Store)
    (entity : List (String × PyVal)) (scope : ScopeArg)
    (pair_id : Option String) (ttl_sec : Option Int) : Except Unit Bool :=
  match _coerce_scope scope with
  | Except.error e => Except.error e
  | Except.ok fd =>
    match canonical_key entity with
    | Except.error e => Except.error e
    | Except.ok key =>
      let cfg := _cfg_from_store store
      let ttl := resolve_ttl ttl_sec cfg fd.1
      let want_dim := opposing fd.2
      match store.should_suppress_by_key with
      | some pred =>
        match pred key fd.1 want_dim ttl pair_id with
        | Except.error e => Except.error e
        | Except.ok r => Except.ok (pyTruthy r)
      | Option.none =>
        let t2 : Except Unit (Option Bool) :=
          match store.last_negative_ts with
          | some f =>
            match f key fd.1 want_dim pair_id with
            | Except.error e => Except.error e
            | Except.ok ts =>
              match ts with
              | PyVal.none => Except.ok Option.none
              | _ =>
                match pyInt ts with
                | Except.error e => Except.error e
                | Except.ok n => Except.ok (some (decide ((now - n) < ttl)))
          | Option.none => Except.ok Option.none
        match t2 with
        | Except.error e => Except.error e
        | Except.ok (some b) => Except.ok b
        | Except.ok Option.none =>
          match store.get with
          | some g =>
            match g key fd.1 want_dim pair_id with
            | Except.error e => Except.error e
            | Except.ok r =>
              match r with
              | PyVal.dict es =>
                match es.lookup "ts" with
                | some tsv =>
                  match pyInt tsv with
                  | Except.error e => Except.error e
                  | Except.ok n => Except.ok (decide ((now - n) < ttl))
                | Option.none => Except.ok false
              | _ => Except.ok false
          | Option.none => Except.ok false

/-- `should_suppress_write(...)`: the core wrapped in the blanket
`except Exception: return False` (fail-open). -/
def should_suppress_write (now : Int) (store : Store)
    (entity : List (String × PyVal)) (scope : ScopeArg)
    (pair_id : Option String) (ttl_sec : Option Int) : Bool :=
  match should_suppress_write_core now store entity scope pair_id ttl_sec with
  | Except.ok b => b
  | Except.error _ => false

-- ---- Shared values for the theorems ----

/-- The six recognized lowercase operation dimensions. -/
def DIMS : List String := ["add", "remove", "rate", "unrate", "scrobble", "unscrobble"]

/-- A store with no capabilities and no configuration attributes. -/
def emptyStore : Store :=
  Store.mk CfgAttr.absent CfgAttr.absent CfgAttr.absent Option.none Option.none Option.none

/-- A store whose every capability and config accessor raises when invoked. -/
def raisingStore : Store :=
  Store.mk (CfgAttr.fn (Except.error ())) (CfgAttr.fn (Except.error ()))
    (CfgAttr.fn (Except.error ()))
    (some (fun _ _ _ _ _ => Except.error ()))
    (some (fun _ _ _ _ => Except.error ()))
    (some (fun _ _ _ _ => Except.error ()))

/-- The configuration of the spec's TTL-precedence example. -/
def gmtExampleCfg : PyVal :=
  PyVal.dict [("sync", PyVal.dict
    [("gmt_quarantine_days", PyVal.int 5),
     ("gmt", PyVal.dict [("ratings_days", PyVal.int 2), ("ratings_sec", PyVal.int 10)])])]

-- ---- C8 ----

/-- C8 counterexample: on the unrecognized mixed-case input "FOO", `opposing`
returns the lowercased input "foo", not the input unchanged. -/
theorem C8_counterexample : opposing "FOO" ≠ "FOO" := by decide

/-- C8 (amended): `opposing` is total and involutive over the six dimensions
after case normalization (add↔remove, rate↔unrate, scrobble↔unscrobble), and
for every input not recognized after lowercasing it returns the lowercased
input without raising. -/
theorem C8_opposing_involutive :
    (∀ d, d ∈ DIMS → opposing (opposing d) = d)
    ∧ opposing "add" = "remove" ∧ opposing "remove" = "add"
    ∧ opposing "rate" = "unrate" ∧ opposing "unrate" = "rate"
    ∧ opposing "scrobble" = "unscrobble" ∧ opposing "unscrobble" = "scrobble"
    ∧ (∀ s, OPPOSITE.lookup (pyLower s) = Option.none → opposing s = pyLower s) := by
  refine ⟨?_, by decide, by decide, by decide, by decide, by decide, by decide, ?_⟩
  · intro d hd
    fin_cases hd <;> decide
  · intro s h
    simp [opposing, h]

/-- Witness for C8: the involution at the concrete dimension "add". -/
theorem C8_opposing_involutive_witness : opposing (opposing "add") = "add" :=
  C8_opposing_involutive.1 "add" (by decide)

-- ---- C10 ----

/-- C10: for every feature and operation verb (including absent ones), the
dimension produced by `negative_event_key` is classified negative by
`is_negative`, and the result does not depend on the verb argument. -/
theorem C10_negative_key_negative :
    ∀ (feature op : Option String),
      is_negative (negative_event_key feature op) = true
      ∧ ∀ op2, negative_event_key feature op = negative_event_key feature op2 := by
  intro feature op
  refine ⟨?_, fun op2 => rfl⟩
  by_cases h1 : pyLower (feature.getD "") = "ratings" <;>
    by_cases h2 : pyLower (feature.getD "") = "history" <;>
      simp [negative_event_key, h1, h2] <;> decide

-- ---- C4 ----

/-- C4 counterexample: a negative override (-5) is used as the TTL instead of
falling back to the resolver (the code tests truthiness, not positivity). -/
theorem C4_counterexample :
    resolve_ttl (some (-5)) (PyVal.dict []) "history"
      ≠ get_quarantine_ttl_sec (PyVal.dict []) "history" := by decide

/-- C4 (amended): the TTL used by the suppression predicate equals the
supplied override whenever it is supplied and nonzero (negative values
included); for a zero or absent override it equals
`get_quarantine_ttl_sec` of the store's configuration and the feature. -/
theorem C4_ttl_override :
    (∀ (t : Int) (cfg : PyVal) (feat : String), t ≠ 0 → resolve_ttl (some t) cfg feat = t)
    ∧ (∀ (cfg : PyVal) (feat : String),
        resolve_ttl Option.none cfg feat = get_quarantine_ttl_sec cfg feat)
    ∧ (∀ (cfg : PyVal) (feat : String),
        resolve_ttl (some 0) cfg feat = get_quarantine_ttl_sec cfg feat) := by
  refine ⟨?_, fun cfg feat => rfl, fun cfg feat => rfl⟩
  intro t cfg feat ht
  simp [resolve_ttl, ht]

/-- Witness for C4: the nonzero override -5 is used verbatim. -/
theorem C4_ttl_override_witness :
    resolve_ttl (some (-5)) (PyVal.dict []) "history" = -5 :=
  C4_ttl_override.1 (-5) (PyVal.dict []) "history" (by decide)

-- ---- C2 ----

/-- C2: a `scope` that is neither a `Scope` nor a mapping raises `TypeError`
inside the try block, but the blanket `except Exception` absorbs it and the
call returns `false` instead of propagating the input-contract violation. -/
theorem C2_scope_typeerror_absorbed :
    should_suppress_write_core 0 emptyStore [] (ScopeArg.other (PyVal.int 42))
        Option.none Option.none = Except.error ()
    ∧ should_suppress_write 0 emptyStore [] (ScopeArg.other (PyVal.int 42))
        Option.none Option.none = false :=
  ⟨rfl, rfl⟩

-- ---- C9 ----

/-- C9: the default resolver reads provider identifiers only from the "ids"
sub-mapping; top-level `tmdb`/`imdb` fields (of any value) are ignored and
the title/year fallback key is returned. -/
theorem C9_top_level_ids_ignored :
    ∀ (tm im : PyVal) (ti : String),
      canonical_key [("tmdb", tm), ("imdb", im), ("title", PyVal.str ti)]
        = Except.ok ("|title:" ++ pyLower (pyStrip ti) ++ "|year:") := by
  intro tm im ti
  by_cases h : ti = ""
  · subst h; rfl
  · have hti : (ti != "") = true := by simpa using h
    simp [canonical_key, mapGet, List.lookup, pyTruthy, pyStr, hti, _ID_KEYS, List.find?]
    rfl

-- ---- C6 ----

/-- C6: `get_quarantine_ttl_sec` is strictly positive and resolves by
first-match-wins (per-feature seconds, per-feature days × 86400, global days
× 86400, static defaults), skipping non-positive or non-numeric overrides;
the precedence example yields 10 and the empty-config history default 172800. -/
theorem C6_ttl_precedence :
    (∀ (cfg : PyVal) (feature : String), 0 < get_quarantine_ttl_sec cfg feature)
    ∧ (∀ (cfg : PyVal) (feature : String) (n : Int),
        _read cfg ["sync", "gmt", pyLower feature ++ "_sec"] = PyVal.int n → 0 < n →
        get_quarantine_ttl_sec cfg feature = n)
    ∧ (∀ (cfg : PyVal) (feature : String) (d : Int),
        posOverride (_read cfg ["sync", "gmt", pyLower feature ++ "_sec"]) = false →
        _read cfg ["sync", "gmt", pyLower feature ++ "_days"] = PyVal.int d → 0 < d →
        get_quarantine_ttl_sec cfg feature = d * 86400)
    ∧ (∀ (cfg : PyVal) (feature : String) (g : Int),
        posOverride (_read cfg ["sync", "gmt", pyLower feature ++ "_sec"]) = false →
        posOverride (_read cfg ["sync", "gmt", pyLower feature ++ "_days"]) = false →
        _read cfg ["sync", "gmt_quarantine_days"] = PyVal.int g → 0 < g →
        get_quarantine_ttl_sec cfg feature = g * 86400)
    ∧ (∀ (cfg : PyVal) (feature : String),
        posOverride (_read cfg ["sync", "gmt", pyLower feature ++ "_sec"]) = false →
        posOverride (_read cfg ["sync", "gmt", pyLower feature ++ "_days"]) = false →
        posOverride (_read cfg ["sync", "gmt_quarantine_days"]) = false →
        get_quarantine_ttl_sec cfg feature
          = ((defaults_days.lookup (pyLower feature)).getD 7) * 86400)
    ∧ get_quarantine_ttl_sec gmtExampleCfg "ratings" = 10
    ∧ get_quarantine_ttl_sec (PyVal.dict []) "history" = 172800
    ∧ get_quarantine_ttl_sec (PyVal.dict []) "watchlist" = 604800
    ∧ get_quarantine_ttl_sec (PyVal.dict []) "ratings" = 259200
    ∧ get_quarantine_ttl_sec (PyVal.dict []) "playlists" = 604800
    ∧ get_quarantine_ttl_sec (PyVal.dict []) "unknownfeature" = 604800 := by
  have hpos : ∀ v : PyVal, posOverride v = true → 0 < pyIntVal v := by
    intro v hv
    cases v <;> simp [posOverride, pyIntVal] at hv ⊢ <;> exact hv
  have hdef : ∀ f : String, 0 < (defaults_days.lookup f).getD 7 := by
    intro f
    cases h1 : f == "watchlist" <;> cases h2 : f == "ratings" <;>
      cases h3 : f == "history" <;> cases h4 : f == "playlists" <;>
        simp [defaults_days, List.lookup, h1, h2, h3, h4]
  refine ⟨?_, ?_, ?_, ?_, ?_, by decide, by decide, by decide, by decide, by decide, by decide⟩
  · intro cfg feature
    simp only [get_quarantine_ttl_sec]
    split_ifs with h1 h2 h3
    · exact hpos _ h1
    · have := hpos _ h2; omega
    · have := hpos _ h3; omega
    · have := hdef (pyLower feature); omega
  · intro cfg feature n hread hn
    simp [get_quarantine_ttl_sec, hread, posOverride, pyIntVal, hn]
  · intro cfg feature d hsec hread hd
    simp only [get_quarantine_ttl_sec, hsec, hread]
    simp [posOverride, pyIntVal, hd]
    omega
  · intro cfg feature g hsec hdays hread hg
    simp only [get_quarantine_ttl_sec, hsec, hdays, hread]
    simp [posOverride, pyIntVal, hg]
    omega
  · intro cfg feature hsec hdays hglobal
    simp [get_quarantine_ttl_sec, hsec, hdays, hglobal]
    omega

/-- Witness for C6: the seconds override wins in the precedence example. -/
theorem C6_ttl_precedence_witness :
    get_quarantine_ttl_sec gmtExampleCfg "ratings" = 10 :=
  C6_ttl_precedence.2.1 gmtExampleCfg "ratings" 10 rfl (by decide)

-- ---- C1 ----

/-- C1: any exception raised inside the try block of `should_suppress_write`
(key computation, TTL resolution, store capability calls) is converted to
`false`; in particular a store whose every capability raises yields `false`
for every input. -/
theorem C1_fail_open :
    (∀ now store entity scope pair_id ttl_sec,
        should_suppress_write_core now store entity scope pair_id ttl_sec = Except.error () →
        should_suppress_write now store entity scope pair_id ttl_sec = false)
    ∧ (∀ now entity scope pair_id ttl_sec,
        should_suppress_write now raisingStore entity scope pair_id ttl_sec = false) := by
  constructor
  · intro now store entity scope pair_id ttl_sec h
    simp [should_suppress_write, h]
  · intro now entity scope pair_id ttl_sec
    cases hc : _coerce_scope scope with
    | error e => simp [should_suppress_write, should_suppress_write_core, hc]
    | ok fd =>
      cases hk : canonical_key entity with
      | error e => simp [should_suppress_write, should_suppress_write_core, hc, hk]
      | ok key => simp [should_suppress_write, should_suppress_write_core, hc, hk, raisingStore]

/-- Witness for C1: a raised key-computation fault (truthy non-mapping "ids")
yields `false`. -/
theorem C1_fail_open_witness :
    should_suppress_write 0 emptyStore [("ids", PyVal.int 1)]
      (ScopeArg.scope (Scope.mk ScopeList.ratings ScopeDim.rate)) Option.none Option.none
      = false :=
  C1_fail_open.1 0 emptyStore [("ids", PyVal.int 1)]
    (ScopeArg.scope (Scope.mk ScopeList.ratings ScopeDim.rate)) Option.none Option.none rfl

-- ---- C3 ----

/-- C3 counterexample: a store whose `last_negative_ts` returns no timestamp
but whose generic `get` returns a fresh record yields `true`: the generic
lookup IS consulted after an empty tier-2 answer, so the claimed
"result is false, generic lookup not consulted" fails. -/
theorem C3_counterexample :
    should_suppress_write 1000
      (Store.mk CfgAttr.absent CfgAttr.absent CfgAttr.absent Option.none
        (some (fun _ _ _ _ => Except.ok PyVal.none))
        (some (fun _ _ _ _ => Except.ok (PyVal.dict [("ts", PyVal.int 999)]))))
      [] (ScopeArg.scope (Scope.mk ScopeList.ratings ScopeDim.rate)) Option.none Option.none
      = true := rfl

/-- C3 (amended): the store is queried through the first supported capability
in the order direct predicate, last-negative timestamp, generic lookup: with
the direct predicate present the lower tiers are ignored; when the
last-negative-timestamp lookup returns no timestamp, evaluation falls
through to the generic lookup (behaving as if tier 2 were absent); with no
capability at all the result is `false`. -/
theorem C3_capability_tiering :
    (∀ now ca cf gc p lt1 lt2 g1 g2 entity scope pair_id ttl_sec,
        should_suppress_write now (Store.mk ca cf gc (some p) lt1 g1)
            entity scope pair_id ttl_sec
          = should_suppress_write now (Store.mk ca cf gc (some p) lt2 g2)
              entity scope pair_id ttl_sec)
    ∧ (∀ now ca cf gc g entity scope pair_id ttl_sec,
        should_suppress_write now
            (Store.mk ca cf gc Option.none (some (fun _ _ _ _ => Except.ok PyVal.none)) g)
            entity scope pair_id ttl_sec
          = should_suppress_write now (Store.mk ca cf gc Option.none Option.none g)
              entity scope pair_id ttl_sec)
    ∧ (∀ now ca cf gc entity scope pair_id ttl_sec,
        should_suppress_write now (Store.mk ca cf gc Option.none Option.none Option.none)
          entity scope pair_id ttl_sec = false) := by
  refine ⟨fun _ _ _ _ _ _ _ _ _ _ _ _ _ => rfl, fun _ _ _ _ _ _ _ _ _ => rfl, ?_⟩
  intro now ca cf gc entity scope pair_id ttl_sec
  cases hc : _coerce_scope scope with
  | error e => simp [should_suppress_write, should_suppress_write_core, hc]
  | ok fd =>
    cases hk : canonical_key entity with
    | error e => simp [should_suppress_write, should_suppress_write_core, hc, hk]
    | ok key => simp [should_suppress_write, should_suppress_write_core, hc, hk]

-- ---- C5 ----

/-- C5: when suppression is decided from a last-negative timestamp (tier 2 or
tier 3), the comparison `now - ts < ttl` is strict: a timestamp exactly at
`now - ttl` yields `false`, one at `now - ttl + 1` yields `true`. -/
theorem C5_strict_boundary :
    ∀ (now t : Int) (ca cf gc : CfgAttr) (entity : List (String × PyVal)) (scope : ScopeArg)
      (pair_id : Option String) (fd : String × String) (key : String),
      t ≠ 0 →
      _coerce_scope scope = Except.ok fd →
      canonical_key entity = Except.ok key →
      (should_suppress_write now
          (Store.mk ca cf gc Option.none
            (some (fun _ _ _ _ => Except.ok (PyVal.int (now - t)))) Option.none)
          entity scope pair_id (some t) = false
       ∧ should_suppress_write now
          (Store.mk ca cf gc Option.none
            (some (fun _ _ _ _ => Except.ok (PyVal.int (now - t + 1)))) Option.none)
          entity scope pair_id (some t) = true
       ∧ should_suppress_write now
          (Store.mk ca cf gc Option.none Option.none
            (some (fun _ _ _ _ => Except.ok (PyVal.dict [("ts", PyVal.int (now - t))]))))
          entity scope pair_id (some t) = false
       ∧ should_suppress_write now
          (Store.mk ca cf gc Option.none Option.none
            (some (fun _ _ _ _ => Except.ok (PyVal.dict [("ts", PyVal.int (now - t + 1))]))))
          entity scope pair_id (some t) = true) := by
  intro now t ca cf gc entity scope pair_id fd key ht hc hk
  refine ⟨?_, ?_, ?_, ?_⟩ <;>
    simp [should_suppress_write, should_suppress_write_core, hc, hk, resolve_ttl, ht,
      pyInt, mapGet, List.lookup] <;>
    omega

/-- Witness for C5: the boundary at `now = 1000`, `ttl = 100`. -/
theorem C5_strict_boundary_witness :
    should_suppress_write 1000
        (Store.mk CfgAttr.absent CfgAttr.absent CfgAttr.absent Option.none
          (some (fun _ _ _ _ => Except.ok (PyVal.int 900))) Option.none)
        [] (ScopeArg.scope (Scope.mk ScopeList.ratings ScopeDim.rate)) Option.none (some 100)
      = false
    ∧ should_suppress_write 1000
        (Store.mk CfgAttr.absent CfgAttr.absent CfgAttr.absent Option.none
          (some (fun _ _ _ _ => Except.ok (PyVal.int 901))) Option.none)
        [] (ScopeArg.scope (Scope.mk ScopeList.ratings ScopeDim.rate)) Option.none (some 100)
      = true
    ∧ should_suppress_write 1000
        (Store.mk CfgAttr.absent CfgAttr.absent CfgAttr.absent Option.none Option.none
          (some (fun _ _ _ _ => Except.ok (PyVal.dict [("ts", PyVal.int 900)]))))
        [] (ScopeArg.scope (Scope.mk ScopeList.ratings ScopeDim.rate)) Option.none (some 100)
      = false
    ∧ should_suppress_write 1000
        (Store.mk CfgAttr.absent CfgAttr.absent CfgAttr.absent Option.none Option.none
          (some (fun _ _ _ _ => Except.ok (PyVal.dict [("ts", PyVal.int 901)]))))
        [] (ScopeArg.scope (Scope.mk ScopeList.ratings ScopeDim.rate)) Option.none (some 100)
      = true :=
  C5_strict_boundary 1000 100 CfgAttr.absent CfgAttr.absent CfgAttr.absent []
    (ScopeArg.scope (Scope.mk ScopeList.ratings ScopeDim.rate)) Option.none
    ("ratings", "rate") "|title:|year:" (by decide) rfl rfl

-- ---- C7 ----

/-- C7 counterexample: an entity whose "ids" field is a truthy non-mapping
value makes `canonical_key` raise (`AttributeError` on `.get`), so the
resolver does not "never raise". -/
theorem C7_counterexample : canonical_key [("ids", PyVal.int 5)] = Except.error () := rfl

/-- The "type" value used by the fallback branch is a string whenever the
entity's "type" field is falsy or a string. -/
theorem tv_branch_is_str (item : List (String × PyVal))
    (hty : pyTruthy (mapGet item "type") = false ∨ ∃ s, mapGet item "type" = PyVal.str s) :
    ∃ t, (if pyTruthy (mapGet item "type") then mapGet item "type" else PyVal.str "")
      = PyVal.str t := by
  rcases hty with h | ⟨s, h⟩
  · rw [h]; exact ⟨"", rfl⟩
  · by_cases h2 : pyTruthy (mapGet item "type") = true
    · rw [if_pos h2, h]; exact ⟨s, rfl⟩
    · rw [if_neg h2]; exact ⟨"", rfl⟩

/-- C7 (amended): the default `canonical_key` returns
`"<idName>:<lowercased str(value)>"` for the first identifier of the fixed
priority list present and truthy in the entity's "ids" mapping (so `tmdb`
beats `imdb`, and values differing only in ASCII case give the same key);
otherwise it returns `"<lower(type)>|title:<lower(strip(title))>|year:<year
or empty>"`; and it never raises on an entity whose "ids" field, when
truthy, is a mapping and whose "type" field, when truthy, is a string — in
particular not on an entity with no fields at all. -/
theorem C7_canonical_key :
    (∀ (ids : List (String × PyVal)) (k : String), ids ≠ [] →
        _ID_KEYS.find? (fun k2 => pyTruthy (mapGet ids k2)) = some k →
        canonical_key [("ids", PyVal.dict ids)]
          = Except.ok (k ++ ":" ++ pyLower (pyStr (mapGet ids k))))
    ∧ (∀ v w : String, v ≠ "" →
        canonical_key [("ids", PyVal.dict [("imdb", PyVal.str w), ("tmdb", PyVal.str v)])]
          = Except.ok ("tmdb:" ++ pyLower v))
    ∧ (∀ (k v1 v2 : String), k ∈ _ID_KEYS → v1 ≠ "" → v2 ≠ "" → pyLower v1 = pyLower v2 →
        canonical_key [("ids", PyVal.dict [(k, PyVal.str v1)])]
          = canonical_key [("ids", PyVal.dict [(k, PyVal.str v2)])])
    ∧ (∀ (t ti : String) (y : Int), y ≠ 0 →
        canonical_key [("type", PyVal.str t), ("title", PyVal.str ti), ("year", PyVal.int y)]
          = Except.ok (pyLower t ++ "|title:" ++ pyLower (pyStrip ti) ++ "|year:" ++ toString y))
    ∧ canonical_key [] = Except.ok "|title:|year:"
    ∧ (∀ item : List (String × PyVal),
        (pyTruthy (mapGet item "ids") = false ∨ ∃ es, mapGet item "ids" = PyVal.dict es) →
        (pyTruthy (mapGet item "type") = false ∨ ∃ s, mapGet item "type" = PyVal.str s) →
        ∃ out, canonical_key item = Except.ok out) := by
  refine ⟨?_, ?_, ?_, ?_, rfl, ?_⟩
  · intro ids k hne hfind
    cases ids with
    | nil => exact absurd rfl hne
    | cons a l =>
      have hstep : canonical_key [("ids", PyVal.dict (a :: l))]
          = (match _ID_KEYS.find? (fun k2 => pyTruthy (mapGet (a :: l) k2)) with
             | some k => Except.ok (k ++ ":" ++ pyLower (pyStr (mapGet (a :: l) k)))
             | Option.none => Except.ok "|title:|year:") := rfl
      rw [hstep, hfind]
  · intro v w hv
    have hv1 : (v != "") = true := by simpa using hv
    simp [canonical_key, mapGet, List.lookup, pyTruthy, pyStr, hv1, _ID_KEYS, List.find?]
  · intro k v1 v2 hk hv1 hv2 hlow
    have hb1 : (v1 != "") = true := by simpa using hv1
    have hb2 : (v2 != "") = true := by simpa using hv2
    fin_cases hk <;>
      simp [canonical_key, mapGet, List.lookup, pyTruthy, pyStr, hb1, hb2, _ID_KEYS,
        List.find?, hlow]
  · intro t ti y hy
    have hyb : (y != 0) = true := by simpa using hy
    by_cases hti : ti = ""
    · subst hti
      by_cases ht : t = ""
      · subst ht
        simp [canonical_key, mapGet, List.lookup, pyTruthy, pyStr, pyRepr, hyb, _ID_KEYS,
          List.find?]
      · have htb : (t != "") = true := by simpa using ht
        simp [canonical_key, mapGet, List.lookup, pyTruthy, pyStr, pyRepr, hyb, htb, _ID_KEYS,
          List.find?]
    · have htib : (ti != "") = true := by simpa using hti
      by_cases ht : t = ""
      · subst ht
        simp [canonical_key, mapGet, List.lookup, pyTruthy, pyStr, pyRepr, hyb, htib, _ID_KEYS,
          List.find?]
        try rfl
      · have htb : (t != "") = true := by simpa using ht
        simp [canonical_key, mapGet, List.lookup, pyTruthy, pyStr, pyRepr, hyb, htib, htb,
          _ID_KEYS, List.find?]
        try rfl
  · intro item hids hty
    obtain ⟨t, htv⟩ := tv_branch_is_str item hty
    cases hck : canonical_key item with
    | ok s => exact ⟨s, rfl⟩
    | error e =>
      exfalso
      rcases hids with h | ⟨es, h⟩
      · simp only [canonical_key, h, Bool.false_eq_true, if_false] at hck
        rw [htv] at hck
        simp [mapGet, _ID_KEYS, List.find?, List.lookup, pyTruthy] at hck
      · by_cases h2 : pyTruthy (mapGet item "ids") = true
        · have h2e : pyTruthy (PyVal.dict es) = true := by rw [h] at h2; exact h2
          simp only [canonical_key, h, h2e, if_true] at hck
          cases hf : _ID_KEYS.find? (fun k2 => pyTruthy (mapGet es k2)) with
          | some k =>
            rw [hf] at hck
            exact Except.noConfusion hck
          | none =>
            rw [hf, htv] at hck
            exact Except.noConfusion hck
        · simp only [canonical_key, h2, Bool.not_eq_true, if_neg] at hck
          rw [htv] at hck
          simp [mapGet, _ID_KEYS, List.find?, List.lookup, pyTruthy] at hck

/-- Witness for C7: an entity carrying both `imdb` and `tmdb` identifiers
yields the tmdb-based key. -/
theorem C7_canonical_key_witness :
    canonical_key [("ids", PyVal.dict [("imdb", PyVal.str "tt0133093"),
        ("tmdb", PyVal.str "603")])]
      = Except.ok "tmdb:603" :=
  C7_canonical_key.2.1 "603" "tt0133093" (by decide)
